import Mathlib

/-!
Verification of the brain-tumor-segmentation prediction service
(`backend.py`): a shallow embedding of the FastAPI endpoints
`predict_tumor` (`POST /predict`), `batch_predict` (`POST /batch-predict`)
and `health_check` (`GET /health`), together with the helper functions
`preprocess_image` and `create_segmentation_overlay`.

Modelling conventions:
* machine floats are modelled as exact rationals (`ℚ`); for the quantities
  the claims are about — the probability mask values, the `> 0.5` threshold,
  `tumor_pixels / total_pixels * 100` with `total_pixels = 2 ^ 14` — the
  float computations in the source are exact, so the rational semantics
  coincides with the float one;
* external libraries (the keras model, PIL decoding/resizing, the cv2
  colour/contour primitives, PNG/base64 encoding) are black boxes: they
  enter the embedding as fields of the `Model` and `Ext` structures, and the
  endpoints are parametrised by them;
* a raised exception is an `Except.error`; FastAPI `HTTPException`s are the
  `ApiError.http status detail` constructor, and Starlette renders such an
  exception as the string `"{status}: {detail}"` when Python takes `str(e)`.
-/

namespace BrainSeg

/-- A 128×128 grid of cells, the fixed model/tensor geometry of the service
(`target_size=(128, 128)` in `preprocess_image`, model output shape
`(1, 128, 128, 1)`). -/
abbrev Grid (α : Type) : Type := Fin 128 → Fin 128 → α

/-- An uploaded multipart file: `file.filename`, `file.content_type`, and the
bytes returned by `await file.read()`. -/
structure UploadedFile where
  filename : String
  contentType : String
  bytes : List Nat

/-- The result of `PIL.Image.open` on decodable bytes, as far as the service
observes it: the reported size (`image.size = (width, height)`) and the
128×128 grid of 8-bit luminance values produced by the external PIL calls
`image.convert('L')` followed by `image.resize((128, 128), Image.LANCZOS)`. -/
structure DecodedImage where
  width : Nat
  height : Nat
  gray128 : Grid Nat

/-- The loaded keras artifact, an opaque function from the preprocessed
tensor to the probability mask `prediction[0, :, :, 0]` (the spec's
Inference Adapter contract: spatial shape of the output equals the 128×128
input shape). -/
structure Model where
  predict : Grid ℚ → Grid ℚ

/-- Process-wide service state: the global `model` variable, `none` when the
artifact was missing or failed to load at startup. -/
structure AppState where
  model : Option Model

/-- External library operations used by the request handlers.
`decode` is `PIL.Image.open` on the uploaded bytes: it either returns a
decoded image or raises `PIL.UnidentifiedImageError`, whose message is
`"cannot identify image file <fp>"` — never the empty string, which the
field `decode_err_nonempty` records.  `cvtColorGray2RGB`, `addWeighted` and
`findDrawContours` are the cv2 primitives used by
`create_segmentation_overlay` (`findDrawContours` combines
`cv2.findContours` on the binary mask with `cv2.drawContours` in green at
line width 2 onto the blended overlay). -/
structure Ext where
  decode : List Nat → Except String DecodedImage
  decode_err_nonempty : ∀ b s, decode b = Except.error s → s ≠ ""
  cvtColorGray2RGB : Grid ℚ → Grid (ℚ × ℚ × ℚ)
  addWeighted : Grid (ℚ × ℚ × ℚ) → ℚ → Grid (ℚ × ℚ × ℚ) → ℚ → ℚ → Grid (ℚ × ℚ × ℚ)
  findDrawContours : Grid (ℚ × ℚ × ℚ) → Grid Bool → Grid (ℚ × ℚ × ℚ)

/-- `MODEL_PATH = "unet_brain_tumor_final.keras"`. -/
def MODEL_PATH : String := "unet_brain_tumor_final.keras"

/-- Python's `s.startswith(p)`: the character sequence of `p` is an initial
segment of the character sequence of `s`. -/
def pyStartsWith (s p : String) : Bool := p.data.isPrefixOf s.data

/-- The per-cell thresholding rule `value > 0.5`, used both in the pixel
statistics (`mask > 0.5` at line 209/292) and in the overlay binarisation
(`(mask > 0.5)` at lines 123/129). -/
def isTumor (q : ℚ) : Bool := 1 / 2 < q

/-- `int(np.sum(mask > 0.5))`: the number of cells of the 128×128 mask whose
probability is strictly above the threshold. -/
def tumorPixels (mask : Grid ℚ) : Nat :=
  (Finset.univ.filter fun p : Fin 128 × Fin 128 => isTumor (mask p.1 p.2) = true).card

/-- `mask.shape[0] * mask.shape[1]` for the 128×128 mask. -/
def totalPixels : Nat := 128 * 128

/-- `img_array.max()` over the 128×128 grid of 8-bit luminance values. -/
def grayMax (g : Grid Nat) : Nat :=
  Finset.univ.sup fun p : Fin 128 × Fin 128 => g p.1 p.2

/-- `original_img.max()` over a rational-valued grid (the float array fed to
`create_segmentation_overlay`). -/
def gridMax (g : Grid ℚ) : ℚ :=
  Finset.univ.sup' (Finset.univ_nonempty) fun p : Fin 128 × Fin 128 => g p.1 p.2

/-- `preprocess_image`: grayscale conversion and LANCZOS resizing to 128×128
are already reflected in `DecodedImage.gray128` (they are the external PIL
calls); what remains in the source is the normalisation
`if img_array.max() > 1.0: img_array = img_array / 255.0` and the reshaping
to `(1, 128, 128, 1)`, of which the service only ever reads the
`[0, :, :, 0]` slice, i.e. the 128×128 grid itself. -/
def preprocess_image (image : DecodedImage) : Grid ℚ :=
  if 1 < grayMax image.gray128 then
    fun i j => (image.gray128 i j : ℚ) / 255
  else
    fun i j => (image.gray128 i j : ℚ)

/-- `create_segmentation_overlay(original_img, mask)`: normalise the original
to `[0, 255]` (`(original_img * 255).astype(np.uint8)` truncates the scaled
float towards zero), lift to RGB, build the red mask layer
`(mask > 0.5).astype(np.uint8) * 255`, blend with
`cv2.addWeighted(rgb_img, 0.7, colored_mask, 0.3, 0)`, and trace the green
contours of `mask_binary = (mask > 0.5)`. -/
def create_segmentation_overlay (ext : Ext) (original_img : Grid ℚ)
    (mask : Grid ℚ) : Grid (ℚ × ℚ × ℚ) :=
  let oimg : Grid ℚ :=
    if gridMax original_img ≤ 1 then
      fun i j => ((Int.floor (original_img i j * 255)).toNat : ℚ)
    else original_img
  let rgb_img := ext.cvtColorGray2RGB oimg
  let colored_mask : Grid (ℚ × ℚ × ℚ) :=
    fun i j => (if isTumor (mask i j) then 255 else 0, 0, 0)
  let overlay := ext.addWeighted rgb_img (7 / 10) colored_mask (3 / 10) 0
  let mask_binary : Grid Bool := fun i j => isTumor (mask i j)
  ext.findDrawContours overlay mask_binary

/-- Python's `round(q, 2)` applied to an exact rational: standard
round-half-to-even of `q * 100` to an integer, divided by 100. -/
def roundHalfToEven (q : ℚ) : ℤ :=
  if q - Int.floor q < 1 / 2 then Int.floor q
  else if 1 / 2 < q - Int.floor q then Int.floor q + 1
  else if 2 ∣ Int.floor q then Int.floor q else Int.floor q + 1

/-- `round(x, 2)`. -/
def pyRound2 (q : ℚ) : ℚ := (roundHalfToEven (q * 100) : ℚ) / 100

/-- An `HTTPException(status_code, detail)` surfaced to the caller. -/
inductive ApiError where
  | http (status : Nat) (detail : String)
deriving DecidableEq

/-- The HTTP status of a surfaced error. -/
def ApiError.status : ApiError → Nat
  | .http s _ => s

/-- The `detail` string of a surfaced error. -/
def ApiError.detail : ApiError → String
  | .http _ d => d

/-- An HTTP status in the 4xx range (a client error). -/
def isClientError (s : Nat) : Bool := 400 ≤ s && s < 500

/-- An HTTP status in the 5xx range (a server error). -/
def isServerError (s : Nat) : Bool := 500 ≤ s

/-- The successful JSON body of `POST /predict`.  The two image fields are
represented by their pixel grids before the resize back to `original_size`
and before the lossless PNG/base64 serialisation (both external):
`segmented_pixels` is the overlay returned by `create_segmentation_overlay`,
and `mask_pixels` is `(mask * 255).astype(np.uint8)` — the probability mask
scaled by 255 and truncated towards zero into an 8-bit value. -/
structure PredictionSuccess where
  success : Bool
  tumor_pixels : Nat
  total_pixels : Nat
  tumor_percentage : ℚ
  segmented_pixels : Grid (ℚ × ℚ × ℚ)
  mask_pixels : Grid Nat
  original_size : Nat × Nat
  model_size : Nat × Nat

/-- `GET /health` response body. -/
structure HealthResponse where
  status : String
  model_loaded : Bool
  model_path : String
deriving DecidableEq

/-- `health_check`: always reports `"healthy"`, plus `model is not None` and
the model path. -/
def health_check (st : AppState) : HealthResponse :=
  { status := "healthy"
    model_loaded := st.model.isSome
    model_path := MODEL_PATH }

/-- `predict_tumor` (`POST /predict`).  Order of effects in the source:
the `model is None` guard (503) sits before the `try` block; inside the
`try`, the content-type check raises `HTTPException(400, "File must be an
image")`, then the bytes are read and decoded, preprocessed, predicted,
thresholded and rendered.  The `except Exception` clause catches every
exception raised inside the `try` — including the 400 `HTTPException`,
whose `str` is `"400: File must be an image"` — and re-raises it as
`HTTPException(500, "Prediction failed: " + str(e))`. -/
def predict_tumor (ext : Ext) (st : AppState) (file : UploadedFile) :
    Except ApiError PredictionSuccess :=
  match st.model with
  | none =>
    .error (.http 503
      "Model not loaded. Please ensure the model file exists at the specified path.")
  | some model =>
    if !(pyStartsWith file.contentType "image/") then
      .error (.http 500 ("Prediction failed: " ++ "400: File must be an image"))
    else
      match ext.decode file.bytes with
      | .error msg => .error (.http 500 ("Prediction failed: " ++ msg))
      | .ok image =>
        let original_size := (image.width, image.height)
        let processed_img := preprocess_image image
        let mask := model.predict processed_img
        let tumor_pixels := tumorPixels mask
        let total_pixels := totalPixels
        let tumor_percentage := ((tumor_pixels : ℚ) / (total_pixels : ℚ)) * 100
        let original_img_array := processed_img
        let overlay_img := create_segmentation_overlay ext original_img_array mask
        .ok
          { success := true
            tumor_pixels := tumor_pixels
            total_pixels := total_pixels
            tumor_percentage := pyRound2 tumor_percentage
            segmented_pixels := overlay_img
            mask_pixels := fun i j => (Int.floor (mask i j * 255)).toNat
            original_size := original_size
            model_size := (128, 128) }

/-- One entry of the `results` list of `POST /batch-predict`: the success
dict carries `filename`, `success: true`, `tumor_pixels` and
`tumor_percentage`; the failure dict carries `filename`, `success: false`
and `error = str(e)`. -/
inductive BatchItemResult where
  | ok (filename : String) (tumor_pixels : Nat) (tumor_percentage : ℚ)
  | err (filename : String) (error : String)
deriving DecidableEq

/-- The `success` flag of a batch entry. -/
def BatchItemResult.success : BatchItemResult → Bool
  | .ok .. => true
  | .err .. => false

/-- The `filename` of a batch entry. -/
def BatchItemResult.filename : BatchItemResult → String
  | .ok f _ _ => f
  | .err f _ => f

/-- The `error` string of a failed batch entry (`none` on a success entry,
where the key is absent from the dict). -/
def BatchItemResult.error? : BatchItemResult → Option String
  | .ok .. => none
  | .err _ e => some e

/-- The `POST /batch-predict` response body. -/
structure BatchResponse where
  total_images : Nat
  successful : Nat
  failed : Nat
  results : List BatchItemResult
deriving DecidableEq

/-- The body of the `for idx, file in enumerate(files)` loop of
`batch_predict`: decode, preprocess, predict and threshold one file inside
its own `try`, producing the success entry, and turn any exception of that
iteration — decoding is the failure point, PIL's message being `str(e)` —
into the failure entry for that file alone. -/
def processFile (ext : Ext) (model : Model) (file : UploadedFile) : BatchItemResult :=
  match ext.decode file.bytes with
  | .error msg => .err file.filename msg
  | .ok image =>
    let processed_img := preprocess_image image
    let mask := model.predict processed_img
    let tumor_pixels := tumorPixels mask
    let total_pixels := totalPixels
    let tumor_percentage := ((tumor_pixels : ℚ) / (total_pixels : ℚ)) * 100
    .ok file.filename tumor_pixels (pyRound2 tumor_percentage)

/-- `batch_predict` (`POST /batch-predict`): the `model is None` guard
(503), then the batch-size guard `len(files) > 10` (400), then the per-file
loop appending one result per file in submission order, and the summary
counts `sum(1 for r in results if r["success"])` /
`sum(1 for r in results if not r["success"])`. -/
def batch_predict (ext : Ext) (st : AppState) (files : List UploadedFile) :
    Except ApiError BatchResponse :=
  match st.model with
  | none =>
    .error (.http 503
      "Model not loaded. Please ensure the model file exists at the specified path.")
  | some model =>
    if 10 < files.length then
      .error (.http 400 "Maximum 10 images allowed per batch")
    else
      let results := files.map (processFile ext model)
      .ok
        { total_images := files.length
          successful := results.countP (fun r => r.success)
          failed := results.countP (fun r => !r.success)
          results := results }

/-! ### General lemmas about the pipeline -/

/-- A mask with no cell above threshold has a zero tumor-pixel count. -/
lemma tumorPixels_eq_zero (mask : Grid ℚ) (h : ∀ i j, isTumor (mask i j) = false) :
    tumorPixels mask = 0 := by
  unfold tumorPixels
  rw [Finset.card_eq_zero, Finset.filter_eq_empty_iff]
  intro p _
  simp [h p.1 p.2]

/-- The tumor-pixel count never exceeds the 128×128 cell count. -/
lemma tumorPixels_le (mask : Grid ℚ) : tumorPixels mask ≤ totalPixels := by
  unfold tumorPixels totalPixels
  calc (Finset.univ.filter fun p : Fin 128 × Fin 128 => isTumor (mask p.1 p.2) = true).card
      ≤ (Finset.univ : Finset (Fin 128 × Fin 128)).card := Finset.card_filter_le _ _
    _ = 128 * 128 := by
        rw [Finset.card_univ, Fintype.card_prod, Fintype.card_fin]

/-- Success path of `predict_tumor`: with the model loaded, an image content
type and decodable bytes, the handler returns the success body built from the
decoded image. -/
lemma predict_tumor_ok_of (ext : Ext) (st : AppState) (m : Model)
    (file : UploadedFile) (img : DecodedImage)
    (hm : st.model = some m) (hct : pyStartsWith file.contentType "image/" = true)
    (hd : ext.decode file.bytes = Except.ok img) :
    predict_tumor ext st file = Except.ok
      { success := true
        tumor_pixels := tumorPixels (m.predict (preprocess_image img))
        total_pixels := totalPixels
        tumor_percentage := pyRound2
          (((tumorPixels (m.predict (preprocess_image img)) : ℚ) / (totalPixels : ℚ)) * 100)
        segmented_pixels := create_segmentation_overlay ext (preprocess_image img)
          (m.predict (preprocess_image img))
        mask_pixels := fun i j =>
          (Int.floor (m.predict (preprocess_image img) i j * 255)).toNat
        original_size := (img.width, img.height)
        model_size := (128, 128) } := by
  obtain ⟨mo⟩ := st
  cases mo with
  | none => cases hm
  | some m' =>
    cases hm
    unfold predict_tumor
    rw [hct, hd]
    rfl

/-- Inversion of a successful `predict_tumor` call: the model was loaded,
the content type passed, the bytes decoded, and the result is the success
body of that decoded image. -/
lemma predict_tumor_ok_inv (ext : Ext) (st : AppState) (file : UploadedFile)
    (r : PredictionSuccess) (h : predict_tumor ext st file = Except.ok r) :
    ∃ m img, st.model = some m ∧ pyStartsWith file.contentType "image/" = true ∧
      ext.decode file.bytes = Except.ok img ∧
      r = { success := true
            tumor_pixels := tumorPixels (m.predict (preprocess_image img))
            total_pixels := totalPixels
            tumor_percentage := pyRound2
              (((tumorPixels (m.predict (preprocess_image img)) : ℚ) / (totalPixels : ℚ)) * 100)
            segmented_pixels := create_segmentation_overlay ext (preprocess_image img)
              (m.predict (preprocess_image img))
            mask_pixels := fun i j =>
              (Int.floor (m.predict (preprocess_image img) i j * 255)).toNat
            original_size := (img.width, img.height)
            model_size := (128, 128) } := by
  obtain ⟨mo⟩ := st
  cases mo with
  | none => cases h
  | some m =>
    unfold predict_tumor at h
    cases hct : pyStartsWith file.contentType "image/" with
    | false => rw [hct] at h; cases h
    | true =>
      rw [hct] at h
      cases hd : ext.decode file.bytes with
      | error msg => rw [hd] at h; cases h
      | ok img =>
        rw [hd] at h
        refine ⟨m, img, rfl, rfl, rfl, ?_⟩
        cases h
        rfl

/-- Success path of `batch_predict`: with the model loaded and at most 10
files, the response is built by processing each file independently. -/
lemma batch_predict_ok_of (ext : Ext) (st : AppState) (m : Model)
    (files : List UploadedFile)
    (hm : st.model = some m) (hlen : files.length ≤ 10) :
    batch_predict ext st files = Except.ok
      { total_images := files.length
        successful := (files.map (processFile ext m)).countP (fun r => r.success)
        failed := (files.map (processFile ext m)).countP (fun r => !r.success)
        results := files.map (processFile ext m) } := by
  obtain ⟨mo⟩ := st
  cases mo with
  | none => cases hm
  | some m' =>
    cases hm
    unfold batch_predict
    dsimp only
    rw [if_neg (by omega)]

/-- Inversion of a successful `batch_predict` call. -/
lemma batch_predict_ok_inv (ext : Ext) (st : AppState)
    (files : List UploadedFile) (resp : BatchResponse)
    (h : batch_predict ext st files = Except.ok resp) :
    ∃ m, st.model = some m ∧ files.length ≤ 10 ∧
      resp = { total_images := files.length
               successful := (files.map (processFile ext m)).countP (fun r => r.success)
               failed := (files.map (processFile ext m)).countP (fun r => !r.success)
               results := files.map (processFile ext m) } := by
  obtain ⟨mo⟩ := st
  cases mo with
  | none => cases h
  | some m =>
    unfold batch_predict at h
    dsimp only at h
    by_cases hlen : 10 < files.length
    · rw [if_pos hlen] at h; cases h
    · rw [if_neg hlen] at h
      cases h
      exact ⟨m, rfl, by omega, rfl⟩

/-- `processFile` keeps the submitted file's name on both branches. -/
lemma processFile_filename (ext : Ext) (m : Model) (file : UploadedFile) :
    (processFile ext m file).filename = file.filename := by
  unfold processFile
  cases ext.decode file.bytes <;> rfl

/-! ### Concrete instances used to exercise the endpoints

A stub inference capability (spec §9: "substituting a stub inference
capability" keeps the pipeline testable), stub external image operations,
and concrete uploads. -/

/-- A decoded 128×128 all-black image. -/
def img0 : DecodedImage :=
  { width := 128, height := 128, gray128 := fun _ _ => 0 }

/-- A decoded 256×192 all-black image (original size differs from 128×128). -/
def imgWide : DecodedImage :=
  { width := 256, height := 192, gray128 := fun _ _ => 0 }

/-- A stub model predicting probability 0 everywhere. -/
def m0 : Model := { predict := fun _ => fun _ _ => 0 }

/-- A stub model predicting probability exactly 1/2 everywhere. -/
def mHalf : Model := { predict := fun _ => fun _ _ => 1 / 2 }

/-- The message of PIL's `UnidentifiedImageError` for an in-memory stream. -/
def pilMsg : String := "cannot identify image file <_io.BytesIO object>"

/-- Stub cv2 colour conversion: replicate the gray value on each channel. -/
def stubCvt : Grid ℚ → Grid (ℚ × ℚ × ℚ) :=
  fun g i j => (g i j, g i j, g i j)

/-- Stub cv2 weighted blend. -/
def stubBlend : Grid (ℚ × ℚ × ℚ) → ℚ → Grid (ℚ × ℚ × ℚ) → ℚ → ℚ → Grid (ℚ × ℚ × ℚ) :=
  fun a _ _ _ _ => a

/-- Stub cv2 contour pass: leave the overlay unchanged. -/
def stubContours : Grid (ℚ × ℚ × ℚ) → Grid Bool → Grid (ℚ × ℚ × ℚ) :=
  fun o _ => o

/-- External operations whose decoder accepts every byte string. -/
def extOk : Ext :=
  { decode := fun _ => Except.ok img0
    decode_err_nonempty := fun _ _ h => by cases h
    cvtColorGray2RGB := stubCvt
    addWeighted := stubBlend
    findDrawContours := stubContours }

/-- External operations whose decoder accepts everything as a 256×192 image. -/
def extWide : Ext :=
  { decode := fun _ => Except.ok imgWide
    decode_err_nonempty := fun _ _ h => by cases h
    cvtColorGray2RGB := stubCvt
    addWeighted := stubBlend
    findDrawContours := stubContours }

/-- External operations whose decoder rejects every byte string the way PIL
does. -/
def extFail : Ext :=
  { decode := fun _ => Except.error pilMsg
    decode_err_nonempty := fun _ s h => by
      injection h with h
      rw [← h]
      decide
    cvtColorGray2RGB := stubCvt
    addWeighted := stubBlend
    findDrawContours := stubContours }

/-- External operations whose decoder rejects exactly the byte string
`[9]` (the corrupted upload) and accepts everything else. -/
def ext3 : Ext :=
  { decode := fun b => if b = [9] then Except.error pilMsg else Except.ok img0
    decode_err_nonempty := fun b s h => by
      dsimp only at h
      by_cases hb : b = [9]
      · rw [if_pos hb] at h
        injection h with h
        rw [← h]
        decide
      · rw [if_neg hb] at h
        cases h
    cvtColorGray2RGB := stubCvt
    addWeighted := stubBlend
    findDrawContours := stubContours }

/-- Service state with the stub zero model loaded. -/
def st0 : AppState := { model := some m0 }

/-- Service state with the stub half model loaded. -/
def stHalf : AppState := { model := some mHalf }

/-- Service state whose model failed to load. -/
def stNone : AppState := { model := none }

/-- A well-formed upload. -/
def fileA : UploadedFile :=
  { filename := "scan_a.png", contentType := "image/png", bytes := [0] }

/-- A second well-formed upload. -/
def fileB : UploadedFile :=
  { filename := "scan_b.png", contentType := "image/png", bytes := [1] }

/-- A corrupted upload: bytes `[9]`, rejected by `ext3.decode`. -/
def fileBad : UploadedFile :=
  { filename := "corrupt.png", contentType := "image/png", bytes := [9] }

/-- Eleven uploads, one more than the batch limit. -/
def files11 : List UploadedFile := List.replicate 11 fileA

/-- The three-file batch of the spec's example, with one corrupted file. -/
def files3 : List UploadedFile := [fileA, fileBad, fileB]

/-- Rejection path of `batch_predict`: more than 10 files with a loaded
model yields the 400 error. -/
lemma batch_predict_reject (ext : Ext) (st : AppState) (m : Model)
    (files : List UploadedFile) (hm : st.model = some m)
    (hlen : 10 < files.length) :
    batch_predict ext st files =
      Except.error (ApiError.http 400 "Maximum 10 images allowed per batch") := by
  obtain ⟨mo⟩ := st
  cases mo with
  | none => cases hm
  | some m' =>
    cases hm
    unfold batch_predict
    dsimp only
    rw [if_pos hlen]

/-! ### Claim theorems -/

/-- C9: whenever the model artifact is not loaded, every request to the
single-prediction endpoint fails fast with the 503 `ModelUnavailable` error
— uniformly in the uploaded file and in the external image operations, so
no decode, preprocessing or inference is attempted — the handler returns an
error value rather than raising an unhandled exception, and the liveness
endpoint reports `model_loaded = false`. -/
theorem C9_model_unavailable_fails_fast (st : AppState) (h : st.model = none) :
    (∀ (ext : Ext) (file : UploadedFile),
        predict_tumor ext st file = Except.error (ApiError.http 503
          "Model not loaded. Please ensure the model file exists at the specified path.")) ∧
    health_check st =
      { status := "healthy", model_loaded := false, model_path := MODEL_PATH } := by
  obtain ⟨mo⟩ := st
  cases mo with
  | none => exact ⟨fun ext file => rfl, rfl⟩
  | some m => cases h

/-- C9 witness: the degraded state, probed with a concrete upload and
concrete external operations. -/
theorem C9_witness :
    predict_tumor extOk stNone fileA = Except.error (ApiError.http 503
      "Model not loaded. Please ensure the model file exists at the specified path.") ∧
    health_check stNone =
      { status := "healthy", model_loaded := false, model_path := MODEL_PATH } :=
  ⟨(C9_model_unavailable_fails_fast stNone rfl).1 extOk fileA,
   (C9_model_unavailable_fails_fast stNone rfl).2⟩

/-- C4: thresholding of the probability mask is strict — a cell counts as
tumor exactly when its probability is strictly greater than 1/2, a cell at
exactly 1/2 is background, the pixel statistic counts exactly the strictly
above-threshold cells, and an all-zero probability mask yields
`tumor_pixels = 0`. -/
theorem C4_strict_threshold :
    (∀ q : ℚ, isTumor q = true ↔ 1 / 2 < q) ∧
    isTumor (1 / 2) = false ∧
    (∀ mask : Grid ℚ, tumorPixels mask =
        (Finset.univ.filter fun p : Fin 128 × Fin 128 => 1 / 2 < mask p.1 p.2).card) ∧
    tumorPixels (fun _ _ => 0) = 0 := by
  refine ⟨fun q => by simp [isTumor], by simp [isTumor], fun mask => ?_, ?_⟩
  · unfold tumorPixels
    have h : (Finset.univ.filter fun p : Fin 128 × Fin 128 => isTumor (mask p.1 p.2) = true) =
        Finset.univ.filter fun p : Fin 128 × Fin 128 => 1 / 2 < mask p.1 p.2 :=
      Finset.filter_congr fun p _ => by simp [isTumor]
    rw [h]
  · exact tumorPixels_eq_zero _ fun i j => by simp [isTumor]

/-- C4 witness: the threshold rule at concrete probabilities. -/
theorem C4_witness :
    isTumor 1 = true ∧ isTumor (1 / 2) = false ∧ tumorPixels (fun _ _ => 0) = 0 :=
  ⟨(C4_strict_threshold.1 1).mpr (by norm_num), C4_strict_threshold.2.1,
   C4_strict_threshold.2.2.2⟩

/-- C7: a batch of more than 10 files with the model loaded is rejected
whole with the 400 client error; the response is uniform in the external
decode/inference operations, the loaded model and the submitted bytes, so
no preprocessing or inference is performed on any file. -/
theorem C7_batch_size_exceeded (ext : Ext) (st : AppState) (m : Model)
    (files : List UploadedFile) (hm : st.model = some m)
    (hlen : 10 < files.length) :
    batch_predict ext st files =
      Except.error (ApiError.http 400 "Maximum 10 images allowed per batch") ∧
    isClientError 400 = true ∧
    (∀ (ext' : Ext) (st' : AppState) (m' : Model) (files' : List UploadedFile),
        st'.model = some m' → 10 < files'.length →
        batch_predict ext' st' files' = batch_predict ext st files) :=
  ⟨batch_predict_reject ext st m files hm hlen, by decide,
   fun ext' st' m' files' hm' hlen' => by
    rw [batch_predict_reject ext' st' m' files' hm' hlen',
      batch_predict_reject ext st m files hm hlen]⟩

/-- C7 witness: eleven concrete files are rejected with the 400 error. -/
theorem C7_witness :
    batch_predict extOk st0 files11 =
      Except.error (ApiError.http 400 "Maximum 10 images allowed per batch") :=
  (C7_batch_size_exceeded extOk st0 m0 files11 rfl (by norm_num [files11])).1

/-- C5: for every successfully decoded image — whatever original resolution
the decoded image reports — `total_pixels` in the response is exactly
16384 = 128×128, because inference always operates on the resized 128×128
tensor. -/
theorem C5_total_pixels_constant (ext : Ext) (st : AppState) (m : Model)
    (file : UploadedFile) (img : DecodedImage)
    (hm : st.model = some m) (hct : pyStartsWith file.contentType "image/" = true)
    (hd : ext.decode file.bytes = Except.ok img) :
    ∃ r, predict_tumor ext st file = Except.ok r ∧ r.total_pixels = 16384 :=
  ⟨_, predict_tumor_ok_of ext st m file img hm hct hd, rfl⟩

/-- C5 witness: a decoded 256×192 image still reports 16384 total pixels. -/
theorem C5_witness :
    ∃ r, predict_tumor extWide st0 fileA = Except.ok r ∧ r.total_pixels = 16384 :=
  C5_total_pixels_constant extWide st0 m0 fileA imgWide rfl rfl rfl

/-- Failure branch of the batch loop body: undecodable bytes yield the
failure entry carrying the exception message. -/
lemma processFile_err_of (ext : Ext) (m : Model) (f : UploadedFile) (msg : String)
    (hd : ext.decode f.bytes = Except.error msg) :
    processFile ext m f = BatchItemResult.err f.filename msg := by
  unfold processFile
  rw [hd]

/-- Success branch of the batch loop body. -/
lemma processFile_ok_of (ext : Ext) (m : Model) (f : UploadedFile) (img : DecodedImage)
    (hd : ext.decode f.bytes = Except.ok img) :
    processFile ext m f = BatchItemResult.ok f.filename
      (tumorPixels (m.predict (preprocess_image img)))
      (pyRound2 (((tumorPixels (m.predict (preprocess_image img)) : ℚ) /
        (totalPixels : ℚ)) * 100)) := by
  unfold processFile
  rw [hd]

/-- Inversion of a success entry of the batch loop body. -/
lemma batch_entry_ok_inv (ext : Ext) (m : Model) (f : UploadedFile)
    (fn : String) (tp : Nat) (pct : ℚ)
    (h : processFile ext m f = BatchItemResult.ok fn tp pct) :
    ∃ img, ext.decode f.bytes = Except.ok img ∧ fn = f.filename ∧
      tp = tumorPixels (m.predict (preprocess_image img)) ∧
      pct = pyRound2 (((tumorPixels (m.predict (preprocess_image img)) : ℚ) /
        (totalPixels : ℚ)) * 100) := by
  unfold processFile at h
  cases hd : ext.decode f.bytes with
  | error msg => rw [hd] at h; cases h
  | ok img =>
    rw [hd] at h
    cases h
    exact ⟨img, rfl, rfl, rfl, rfl⟩

/-- Inversion of a failure entry of the batch loop body. -/
lemma batch_entry_err_inv (ext : Ext) (m : Model) (f : UploadedFile)
    (fn : String) (er : String)
    (h : processFile ext m f = BatchItemResult.err fn er) :
    ext.decode f.bytes = Except.error er ∧ fn = f.filename := by
  unfold processFile at h
  cases hd : ext.decode f.bytes with
  | error msg => rw [hd] at h; cases h; exact ⟨rfl, rfl⟩
  | ok img => rw [hd] at h; cases h

set_option maxRecDepth 4000 in
/-- C3: for every successful prediction — single endpoint or batch item —
the reported `tumor_percentage` equals `round(100 * tumor_pixels /
total_pixels, 2)` exactly, where `round` is standard round-half-to-even at
2 decimal places (with `total_pixels = 16384` for batch items, which do not
echo the total). -/
theorem C3_percentage_rounding :
    (∀ (ext : Ext) (st : AppState) (file : UploadedFile) (r : PredictionSuccess),
        predict_tumor ext st file = Except.ok r →
        r.tumor_percentage =
          pyRound2 (100 * (r.tumor_pixels : ℚ) / (r.total_pixels : ℚ))) ∧
    (∀ (ext : Ext) (st : AppState) (files : List UploadedFile) (resp : BatchResponse),
        batch_predict ext st files = Except.ok resp →
        ∀ entry ∈ resp.results, ∀ fn tp pct,
          entry = BatchItemResult.ok fn tp pct →
          pct = pyRound2 (100 * (tp : ℚ) / (16384 : ℚ))) := by
  constructor
  · intro ext st file r h
    obtain ⟨m, img, hm, hct, hd, hr⟩ := predict_tumor_ok_inv ext st file r h
    subst hr
    dsimp only
    have harith : ((tumorPixels (m.predict (preprocess_image img)) : ℚ) /
          (totalPixels : ℚ)) * 100 =
        100 * (tumorPixels (m.predict (preprocess_image img)) : ℚ) / (totalPixels : ℚ) := by
      ring
    rw [harith]
  · intro ext st files resp h entry hin fn tp pct he
    subst he
    obtain ⟨m, hm, hlen, hresp⟩ := batch_predict_ok_inv ext st files resp h
    subst hresp
    simp only [List.mem_map] at hin
    obtain ⟨f, hf, hpf⟩ := hin
    obtain ⟨img, hd, hfn, htp, hpct⟩ := batch_entry_ok_inv ext m f fn tp pct hpf
    subst htp
    rw [hpct]
    have hT : ((totalPixels : ℕ) : ℚ) = 16384 := by norm_num [totalPixels]
    rw [hT]
    have harith : ((tumorPixels (m.predict (preprocess_image img)) : ℚ) / (16384 : ℚ)) * 100 =
        100 * (tumorPixels (m.predict (preprocess_image img)) : ℚ) / (16384 : ℚ) := by
      ring
    rw [harith]

/-- C3 witness: concrete success results on both endpoints satisfy the
rounding identity. -/
theorem C3_witness :
    (∃ r, predict_tumor extOk st0 fileA = Except.ok r ∧
        r.tumor_percentage =
          pyRound2 (100 * (r.tumor_pixels : ℚ) / (r.total_pixels : ℚ))) ∧
    (∃ resp, batch_predict extOk st0 [fileA] = Except.ok resp ∧
        ∀ entry ∈ resp.results, ∀ fn tp pct,
          entry = BatchItemResult.ok fn tp pct →
          pct = pyRound2 (100 * (tp : ℚ) / (16384 : ℚ))) := by
  constructor
  · have h := predict_tumor_ok_of extOk st0 m0 fileA img0 rfl rfl rfl
    exact ⟨_, h, C3_percentage_rounding.1 extOk st0 fileA _ h⟩
  · have h := batch_predict_ok_of extOk st0 m0 [fileA] rfl (by norm_num)
    exact ⟨_, h, C3_percentage_rounding.2 extOk st0 [fileA] _ h⟩

set_option maxRecDepth 4000 in
/-- C6: for every prediction result, `0 ≤ tumor_pixels ≤ total_pixels`: the
count of strictly above-threshold cells never exceeds the 16384 cells of
the 128×128 grid, on the single endpoint and on every batch item. -/
theorem C6_pixel_bounds :
    (∀ mask : Grid ℚ, 0 ≤ tumorPixels mask ∧ tumorPixels mask ≤ totalPixels) ∧
    (∀ (ext : Ext) (st : AppState) (file : UploadedFile) (r : PredictionSuccess),
        predict_tumor ext st file = Except.ok r →
        r.tumor_pixels ≤ r.total_pixels) ∧
    (∀ (ext : Ext) (st : AppState) (files : List UploadedFile) (resp : BatchResponse),
        batch_predict ext st files = Except.ok resp →
        ∀ entry ∈ resp.results, ∀ fn tp pct,
          entry = BatchItemResult.ok fn tp pct → tp ≤ 16384) := by
  refine ⟨fun mask => ⟨Nat.zero_le _, tumorPixels_le mask⟩, ?_, ?_⟩
  · intro ext st file r h
    obtain ⟨m, img, hm, hct, hd, hr⟩ := predict_tumor_ok_inv ext st file r h
    subst hr
    dsimp only
    exact tumorPixels_le _
  · intro ext st files resp h entry hin fn tp pct he
    subst he
    obtain ⟨m, hm, hlen, hresp⟩ := batch_predict_ok_inv ext st files resp h
    subst hresp
    simp only [List.mem_map] at hin
    obtain ⟨f, hf, hpf⟩ := hin
    obtain ⟨img, hd, hfn, htp, hpct⟩ := batch_entry_ok_inv ext m f fn tp pct hpf
    subst htp
    have h16 : totalPixels = 16384 := by norm_num [totalPixels]
    rw [← h16]
    exact tumorPixels_le _

/-- Decode-failure path of `predict_tumor`: PIL's exception is caught by the
`except Exception` clause and re-raised as the 500 error. -/
lemma predict_tumor_decode_err (ext : Ext) (st : AppState) (m : Model)
    (file : UploadedFile) (msg : String)
    (hm : st.model = some m) (hct : pyStartsWith file.contentType "image/" = true)
    (hd : ext.decode file.bytes = Except.error msg) :
    predict_tumor ext st file =
      Except.error (ApiError.http 500 ("Prediction failed: " ++ msg)) := by
  obtain ⟨mo⟩ := st
  cases mo with
  | none => cases hm
  | some m' =>
    cases hm
    unfold predict_tumor
    rw [hct, hd]
    rfl

/-- C1 counterexample: with the model loaded and an image content type, an
upload whose bytes cannot be decoded is answered with HTTP 500 — which is
not a client error, contradicting the claim that the decode failure is
surfaced as a client error. -/
theorem C1_counterexample :
    predict_tumor extFail st0 fileA =
      Except.error (ApiError.http 500 ("Prediction failed: " ++ pilMsg)) ∧
    isClientError 500 = false ∧ isServerError 500 = true :=
  ⟨predict_tumor_decode_err extFail st0 m0 fileA pilMsg rfl rfl rfl,
   by decide, by decide⟩

/-- C1 (amended): for every upload whose bytes cannot be decoded — with the
model loaded and an image content type — the endpoint surfaces the decode
failure to the caller as an HTTP 500 *server* error whose detail embeds the
non-empty decode message (`"Prediction failed: " + str(e)`); the failure is
reported, never silently defaulted, but as a server error, not a client
error. -/
theorem C1_amended_decode_failure_is_server_error (ext : Ext) (st : AppState)
    (m : Model) (file : UploadedFile) (msg : String)
    (hm : st.model = some m) (hct : pyStartsWith file.contentType "image/" = true)
    (hd : ext.decode file.bytes = Except.error msg) :
    predict_tumor ext st file =
      Except.error (ApiError.http 500 ("Prediction failed: " ++ msg)) ∧
    isServerError 500 = true ∧ isClientError 500 = false ∧ msg ≠ "" :=
  ⟨predict_tumor_decode_err ext st m file msg hm hct hd, by decide, by decide,
   ext.decode_err_nonempty _ _ hd⟩

/-- C1 witness: the amended behaviour at a concrete undecodable upload. -/
theorem C1_witness :
    predict_tumor extFail st0 fileB =
      Except.error (ApiError.http 500 ("Prediction failed: " ++ pilMsg)) ∧
    isServerError 500 = true :=
  ⟨(C1_amended_decode_failure_is_server_error extFail st0 m0 fileB pilMsg rfl rfl rfl).1,
   (C1_amended_decode_failure_is_server_error extFail st0 m0 fileB pilMsg rfl rfl rfl).2.1⟩

/-- C2 counterexample: a model whose probability mask is exactly 1/2
everywhere — a legal probability value — yields mask-image pixels of value
`⌊255 · 1/2⌋ = 127`, which is neither 0 nor 255, so the `mask` field is not
the binary mask rendered as a 0-or-255 grayscale image. -/
theorem C2_counterexample :
    ∃ r, predict_tumor extOk stHalf fileA = Except.ok r ∧
      r.mask_pixels 0 0 = 127 ∧ ¬((127 : Nat) = 0 ∨ (127 : Nat) = 255) := by
  have h := predict_tumor_ok_of extOk stHalf mHalf fileA img0 rfl rfl rfl
  refine ⟨_, h, ?_, by decide⟩
  show (Int.floor ((1 / 2 : ℚ) * 255)).toNat = 127
  have h127 : Int.floor ((1 / 2 : ℚ) * 255) = 127 := by norm_num
  rw [h127]
  rfl

/-- C2 (amended): the `mask` field of a successful response is (before the
resize back to the original size and the lossless PNG/base64 encoding) the
*probability* mask rendered as grayscale by scaling each probability by 255
and truncating towards zero to an 8-bit value (`(mask * 255).astype(np.uint8)`,
i.e. pixel `= ⌊255 · p⌋`); pixels are 0 or 255 only where the probability
is below 1/255 or exactly 1, not in general — it is not the thresholded
binary mask. -/
theorem C2_amended_mask_is_scaled_probability (ext : Ext) (st : AppState)
    (m : Model) (file : UploadedFile) (img : DecodedImage)
    (hm : st.model = some m) (hct : pyStartsWith file.contentType "image/" = true)
    (hd : ext.decode file.bytes = Except.ok img) :
    ∃ r, predict_tumor ext st file = Except.ok r ∧
      ∀ i j, r.mask_pixels i j =
        (Int.floor (m.predict (preprocess_image img) i j * 255)).toNat :=
  ⟨_, predict_tumor_ok_of ext st m file img hm hct hd, fun _ _ => rfl⟩

/-- C2 witness: the amended pixel formula at a concrete prediction. -/
theorem C2_witness :
    ∃ r, predict_tumor extOk st0 fileA = Except.ok r ∧
      ∀ i j, r.mask_pixels i j =
        (Int.floor (m0.predict (preprocess_image img0) i j * 255)).toNat :=
  C2_amended_mask_is_scaled_probability extOk st0 m0 fileA img0 rfl rfl rfl

/-- C6 witness: the bound at a concrete successful prediction. -/
theorem C6_witness :
    0 ≤ tumorPixels (fun _ _ => 0) ∧ tumorPixels (fun _ _ => 0) ≤ totalPixels ∧
    ∃ r, predict_tumor extOk st0 fileA = Except.ok r ∧
      r.tumor_pixels ≤ r.total_pixels := by
  have h := predict_tumor_ok_of extOk st0 m0 fileA img0 rfl rfl rfl
  exact ⟨(C6_pixel_bounds.1 (fun _ _ => 0)).1, (C6_pixel_bounds.1 (fun _ _ => 0)).2,
    ⟨_, h, C6_pixel_bounds.2.1 extOk st0 fileA _ h⟩⟩

/-- The two summary counters of a batch partition its length. -/
lemma countP_add_countP_not (l : List BatchItemResult) :
    l.countP (fun r => r.success) + l.countP (fun r => !r.success) = l.length := by
  induction l with
  | nil => rfl
  | cons a l ih =>
    rw [List.countP_cons, List.countP_cons, List.length_cons]
    cases h : a.success <;> simp [h] <;> omega

/-- C8: a batch of at most 10 files with the model loaded is accepted, and
failures are isolated per item: the results list is exactly the per-file map
of the loop body (so each entry depends on its own file alone, and a decode
failure of one file aborts nothing else), a file whose bytes fail to decode
contributes a `success = false` entry carrying the non-empty exception
message, and the response counts the successful and the failed entries. -/
theorem C8_batch_failure_isolation (ext : Ext) (st : AppState) (m : Model)
    (files : List UploadedFile) (hm : st.model = some m)
    (hlen : files.length ≤ 10) :
    ∃ resp, batch_predict ext st files = Except.ok resp ∧
      resp.results = files.map (processFile ext m) ∧
      (∀ f msg, ext.decode f.bytes = Except.error msg →
          processFile ext m f = BatchItemResult.err f.filename msg) ∧
      (∀ entry ∈ resp.results, entry.success = false →
          ∃ e, entry.error? = some e ∧ e ≠ "") ∧
      resp.successful = resp.results.countP (fun r => r.success) ∧
      resp.failed = resp.results.countP (fun r => !r.success) := by
  refine ⟨_, batch_predict_ok_of ext st m files hm hlen, rfl,
    fun f msg hd => processFile_err_of ext m f msg hd, ?_, rfl, rfl⟩
  intro entry hin hfail
  simp only [List.mem_map] at hin
  obtain ⟨f, hf, hpf⟩ := hin
  cases hd : ext.decode f.bytes with
  | error msg =>
    rw [processFile_err_of ext m f msg hd] at hpf
    cases hpf
    exact ⟨msg, rfl, ext.decode_err_nonempty _ _ hd⟩
  | ok img =>
    rw [processFile_ok_of ext m f img hd] at hpf
    cases hpf
    cases hfail

/-- C8 witness: the spec's three-file example — one corrupted file among
three yields two successes, one failure, and a failed entry with a
non-empty error message, while the other two files are still processed. -/
theorem C8_witness :
    ∃ resp, batch_predict ext3 st0 files3 = Except.ok resp ∧
      resp.successful = 2 ∧ resp.failed = 1 ∧ resp.results.length = 3 ∧
      ∃ entry ∈ resp.results, entry.success = false ∧
        ∃ e, entry.error? = some e ∧ e ≠ "" := by
  obtain ⟨resp, hb, hres, herr, hfail, hsucc, hfailed⟩ :=
    C8_batch_failure_isolation ext3 st0 m0 files3 rfl (by norm_num [files3])
  refine ⟨resp, hb, ?_, ?_, ?_, ?_⟩
  · rw [hsucc, hres]; rfl
  · rw [hfailed, hres]; rfl
  · rw [hres]; rfl
  · refine ⟨BatchItemResult.err "corrupt.png" pilMsg, ?_, rfl, pilMsg, rfl, by decide⟩
    rw [hres]
    have hentry : processFile ext3 m0 fileBad = BatchItemResult.err "corrupt.png" pilMsg := rfl
    rw [← hentry]
    exact List.mem_map_of_mem _ (List.Mem.tail _ (List.Mem.head _))

/-- C10: every accepted batch (model loaded, at most 10 files) reports
`successful + failed = total_images`, `total_images` equal to the number of
uploaded files, and a results list of exactly one entry per uploaded file,
in submission order — entry `i` is the processed form of file `i` and keeps
its filename. -/
theorem C10_batch_response_shape (ext : Ext) (st : AppState) (m : Model)
    (files : List UploadedFile) (hm : st.model = some m)
    (hlen : files.length ≤ 10) :
    ∃ resp, batch_predict ext st files = Except.ok resp ∧
      resp.successful + resp.failed = resp.total_images ∧
      resp.total_images = files.length ∧
      resp.results.length = files.length ∧
      ∀ i (hi : i < files.length), ∃ hri : i < resp.results.length,
        resp.results.get ⟨i, hri⟩ = processFile ext m (files.get ⟨i, hi⟩) ∧
        (resp.results.get ⟨i, hri⟩).filename = (files.get ⟨i, hi⟩).filename := by
  refine ⟨_, batch_predict_ok_of ext st m files hm hlen, ?_, rfl, ?_, ?_⟩
  · show (files.map (processFile ext m)).countP _ + (files.map (processFile ext m)).countP _ =
      files.length
    rw [countP_add_countP_not, List.length_map]
  · show (files.map (processFile ext m)).length = files.length
    rw [List.length_map]
  · intro i hi
    have hri : i < (files.map (processFile ext m)).length := by
      rw [List.length_map]; exact hi
    refine ⟨hri, ?_, ?_⟩
    · exact List.get_map (processFile ext m)
    · rw [show ((files.map (processFile ext m)).get ⟨i, hri⟩) =
            processFile ext m (files.get ⟨i, hi⟩) from List.get_map (processFile ext m)]
      exact processFile_filename ext m _

/-- C10 witness: the shape invariants at the concrete three-file batch. -/
theorem C10_witness :
    ∃ resp, batch_predict ext3 st0 files3 = Except.ok resp ∧
      resp.successful + resp.failed = resp.total_images ∧
      resp.total_images = 3 ∧ resp.results.length = 3 := by
  obtain ⟨resp, hb, hsum, htot, hlen, horder⟩ :=
    C10_batch_response_shape ext3 st0 m0 files3 rfl (by norm_num [files3])
  exact ⟨resp, hb, hsum, htot, by rw [hlen]; rfl⟩

end BrainSeg
